import Mathlib

/-!
Verification of the `python_projects` repository.

The development embeds, as Lean functions, the pure computational parts of
two projects of the repository:

* `baseball_analytics/Source/utils/matchup_predictor.py` — the matchup edge
  scorer, talent gap, individual matchup prediction and game outcome
  prediction (namespace `Baseball`), together with the byte-identical copy in
  `Source/app/utils/matchup_predictor.py` (namespace `Baseball.App`);
* `baseball_analytics/Source/utils/tbl_dim_pitcher_archetypes.py` and
  `tbl_dim_hitter_archetypes.py` — the letter-grade calculators;
* `RadarLead/services/places_service.py` and `osm_service.py` — the
  website filter.

Python dictionaries are embedded as structures whose fields carry the
defaults the code supplies through `dict.get`.  Python floats are embedded
as rationals (`ℚ`); the final win-probability conversion, which applies
`np.exp`, lives over the reals (`ℝ`).  `round(x, n)` is embedded through
Mathlib's `round` (round half up); Python rounds half to even, but the two
agree away from exact ties, and no claim below depends on a tie.
-/

namespace Baseball

/-- Numeric field access `d.get(key, dflt) or dflt` of the Python code: an
absent key, a stored `None`, and a stored zero all collapse to the default,
any other stored value is returned as is.  `none` models an absent key or a
stored `None`. -/
def getNum (x : Option ℚ) (d : ℚ) : ℚ :=
  match x with
  | none => d
  | some v => if v = 0 then d else v

/-- A row of `dim_pitcher_archetypes` as read by `matchup_predictor.py`.
String fields are read with `d.get(key, '')` (or `'C'` / `'Unknown'`), so an
absent key is identified with the default string. -/
structure PitcherDict where
  attack_profile : String := ""
  matchup_role : String := ""
  neutrality_pct : Option ℚ := none
  hand : String := ""
  ffour_usage : Option ℚ := none
  bb_usage : Option ℚ := none
  offspeed_usage : Option ℚ := none
  overall_grade : String := "C"
  full_name : String := "Unknown"
deriving DecidableEq, Repr

/-- A row of `dim_hitter_archetypes` as read by `matchup_predictor.py`. -/
structure HitterDict where
  vertical_profile : String := ""
  two_strike_identity : String := ""
  neutrality_pct : Option ℚ := none
  hand : String := ""
  woba_hard_pct : Option ℚ := none
  woba_break_pct : Option ℚ := none
  woba_offspeed_pct : Option ℚ := none
  overall_grade : String := "C"
  full_name : String := "Unknown"
deriving DecidableEq, Repr

/-- `MATCHUP_MATRIX["path_geometry"]`: pitcher attack profile vs hitter
vertical profile. -/
def MATCHUP_MATRIX_path_geometry : List ((String × String) × ℚ) :=
  [(("NORTH-SOUTH (High Rise)", "LOW-BALL GOLFER"), 1.5),
   (("NORTH-SOUTH (High Rise)", "HIGH-BALL HUNTER"), -1.5),
   (("EAST-WEST (Heavy Run)", "DOWNWARD (Groundball)"), 2.0),
   (("EAST-WEST (Heavy Run)", "LEVEL (Line Drive)"), -1.0),
   (("DECEPTIVE (Tunneling)", "UPPERCUT (Flyball)"), 1.0),
   (("LATERAL (Sweeper/Slide)", "ALL-ZONE THREAT"), 0.5)]

/-- `MATCHUP_MATRIX["skill_clash"]`: pitcher matchup role vs hitter
two-strike identity. -/
def MATCHUP_MATRIX_skill_clash : List ((String × String) × ℚ) :=
  [(("DOMINANT ACE", "FREE SWINGER"), 2.0),
   (("PITCH TO CONTACT SURGEON", "ELITE SPOILER"), -2.5),
   (("POWER ARMS (High Risk)", "FREE SWINGER"), 1.5),
   (("ROTATION STABILIZER", "STANDARD"), 0.5),
   (("POWER ARMS (High Risk)", "ELITE SPOILER"), -1.0)]

/-- Python `f"{q:.1f}"`: one decimal place.  Ties and negative zero are
rendered with round-half-up; the reason strings below are only ever counted
by the properties proved in this file. -/
def fmt1 (q : ℚ) : String :=
  let t : Int := round (10 * q)
  (if t < 0 then "-" else "") ++ toString (t.natAbs / 10) ++ "." ++ toString (t.natAbs % 10)

/-- Python `f"{q:+.1f}"`: one decimal place with an explicit sign. -/
def fmtSigned1 (q : ℚ) : String :=
  if q < 0 then fmt1 q else "+" ++ fmt1 q

/-- Block 1 of `calculate_matchup_edge` (GEOMETRY CHECK): pitcher attack
profile vs hitter vertical profile, looked up in
`MATCHUP_MATRIX["path_geometry"]` when both strings are non-empty. -/
def geometryStep (pitcher : PitcherDict) (hitter : HitterDict)
    (acc : ℚ × List String) : ℚ × List String :=
  let pitcher_profile := pitcher.attack_profile
  let hitter_profile := hitter.vertical_profile
  if pitcher_profile ≠ "" ∧ hitter_profile ≠ "" then
    match MATCHUP_MATRIX_path_geometry.lookup (pitcher_profile, hitter_profile) with
    | some score =>
        (acc.1 + score,
         acc.2 ++ ["Geometry (" ++ pitcher_profile ++ " vs " ++ hitter_profile ++ "): "
            ++ fmtSigned1 score])
    | none => acc
  else acc

/-- Block 2 of `calculate_matchup_edge` (SKILL CLASH CHECK): pitcher role vs
hitter two-strike identity, looked up in `MATCHUP_MATRIX["skill_clash"]`. -/
def skillClashStep (pitcher : PitcherDict) (hitter : HitterDict)
    (acc : ℚ × List String) : ℚ × List String :=
  let pitcher_role := pitcher.matchup_role
  let hitter_identity := hitter.two_strike_identity
  if pitcher_role ≠ "" ∧ hitter_identity ≠ "" then
    match MATCHUP_MATRIX_skill_clash.lookup (pitcher_role, hitter_identity) with
    | some score =>
        (acc.1 + score,
         acc.2 ++ ["Skill Clash (" ++ pitcher_role ++ " vs " ++ hitter_identity ++ "): "
            ++ fmtSigned1 score])
    | none => acc
  else acc

/-- Block 3a of `calculate_matchup_edge` (PLATOON LOGIC): a matchup-proof
pitcher (neutrality above 75) gains 1.0. -/
def pitcherNeutralityStep (pitcher : PitcherDict)
    (acc : ℚ × List String) : ℚ × List String :=
  let pitcher_neutrality := getNum pitcher.neutrality_pct 50.0
  if pitcher_neutrality > 75 then
    (acc.1 + 1.0,
     acc.2 ++ ["Pitcher Matchup-Proof (Neutrality: " ++ fmt1 pitcher_neutrality ++ "%): +1.0"])
  else acc

/-- Block 3b of `calculate_matchup_edge` (PLATOON LOGIC): a hitter with low
neutrality facing a same-handed pitcher concedes 1.5. -/
def platoonStep (pitcher : PitcherDict) (hitter : HitterDict)
    (acc : ℚ × List String) : ℚ × List String :=
  let hitter_neutrality := getNum hitter.neutrality_pct 50.0
  let pitcher_hand := pitcher.hand
  let hitter_hand := hitter.hand
  if hitter_neutrality < 40 ∧ pitcher_hand = hitter_hand ∧ pitcher_hand ≠ "" then
    (acc.1 + 1.5,
     acc.2 ++ ["Platoon Advantage (" ++ pitcher_hand ++ "HP vs " ++ hitter_hand
        ++ "HB, Neutrality: " ++ fmt1 hitter_neutrality ++ "%): +1.5"])
  else acc

/-- Block 4a of `calculate_matchup_edge` (PITCH TYPE MATCHUPS): fastball
usage vs hitter wOBA against hard pitches. -/
def fastballStep (pitcher : PitcherDict) (hitter : HitterDict)
    (acc : ℚ × List String) : ℚ × List String :=
  let ffour_usage := getNum pitcher.ffour_usage 0
  let hitter_woba_hard_pct := getNum hitter.woba_hard_pct 50.0
  if ffour_usage > 40 ∧ hitter_woba_hard_pct < 30 then
    (acc.1 + 0.8,
     acc.2 ++ ["Fastball vs Weakness (FF Usage: " ++ fmt1 ffour_usage
        ++ "%, Hitter wOBA vs Hard: " ++ fmt1 hitter_woba_hard_pct ++ "%ile): +0.8"])
  else if ffour_usage > 40 ∧ hitter_woba_hard_pct > 70 then
    (acc.1 - 0.8,
     acc.2 ++ ["Fastball vs Strength (FF Usage: " ++ fmt1 ffour_usage
        ++ "%, Hitter wOBA vs Hard: " ++ fmt1 hitter_woba_hard_pct ++ "%ile): -0.8"])
  else acc

/-- Block 4b of `calculate_matchup_edge` (PITCH TYPE MATCHUPS): breaking-ball
usage vs hitter wOBA against breaking pitches. -/
def breakingStep (pitcher : PitcherDict) (hitter : HitterDict)
    (acc : ℚ × List String) : ℚ × List String :=
  let bb_usage := getNum pitcher.bb_usage 0
  let hitter_woba_break_pct := getNum hitter.woba_break_pct 50.0
  if bb_usage > 30 ∧ hitter_woba_break_pct < 30 then
    (acc.1 + 0.8,
     acc.2 ++ ["Breaking Ball vs Weakness (BB Usage: " ++ fmt1 bb_usage
        ++ "%, Hitter wOBA vs Break: " ++ fmt1 hitter_woba_break_pct ++ "%ile): +0.8"])
  else if bb_usage > 30 ∧ hitter_woba_break_pct > 70 then
    (acc.1 - 0.8,
     acc.2 ++ ["Breaking Ball vs Strength (BB Usage: " ++ fmt1 bb_usage
        ++ "%, Hitter wOBA vs Break: " ++ fmt1 hitter_woba_break_pct ++ "%ile): -0.8"])
  else acc

/-- Block 4c of `calculate_matchup_edge` (PITCH TYPE MATCHUPS): offspeed
usage vs hitter wOBA against offspeed pitches. -/
def offspeedStep (pitcher : PitcherDict) (hitter : HitterDict)
    (acc : ℚ × List String) : ℚ × List String :=
  let offspeed_usage := getNum pitcher.offspeed_usage 0
  let hitter_woba_offspeed_pct := getNum hitter.woba_offspeed_pct 50.0
  if offspeed_usage > 25 ∧ hitter_woba_offspeed_pct < 30 then
    (acc.1 + 0.8,
     acc.2 ++ ["Offspeed vs Weakness (Offspeed Usage: " ++ fmt1 offspeed_usage
        ++ "%, Hitter wOBA vs Offspeed: " ++ fmt1 hitter_woba_offspeed_pct ++ "%ile): +0.8"])
  else if offspeed_usage > 25 ∧ hitter_woba_offspeed_pct > 70 then
    (acc.1 - 0.8,
     acc.2 ++ ["Offspeed vs Strength (Offspeed Usage: " ++ fmt1 offspeed_usage
        ++ "%, Hitter wOBA vs Offspeed: " ++ fmt1 hitter_woba_offspeed_pct ++ "%ile): -0.8"])
  else acc

/-- `calculate_matchup_edge` of `Source/utils/matchup_predictor.py`: starts
from `(0.0, [])` and threads the accumulator through the four commented
blocks of the source, in source order. -/
def calculate_matchup_edge (pitcher : PitcherDict) (hitter : HitterDict) :
    ℚ × List String :=
  offspeedStep pitcher hitter
    (breakingStep pitcher hitter
      (fastballStep pitcher hitter
        (platoonStep pitcher hitter
          (pitcherNeutralityStep pitcher
            (skillClashStep pitcher hitter
              (geometryStep pitcher hitter (0.0, [])))))))

/-- The contribution of the geometry rule: the `path_geometry` lookup on
`(attack_profile, vertical_profile)`, guarded by both strings being
non-empty as in the source. -/
def geometryContrib (pitcher : PitcherDict) (hitter : HitterDict) : Option ℚ :=
  if pitcher.attack_profile ≠ "" ∧ hitter.vertical_profile ≠ "" then
    MATCHUP_MATRIX_path_geometry.lookup (pitcher.attack_profile, hitter.vertical_profile)
  else none

/-- The contribution of the skill-clash rule: the `skill_clash` lookup on
`(matchup_role, two_strike_identity)`. -/
def skillClashContrib (pitcher : PitcherDict) (hitter : HitterDict) : Option ℚ :=
  if pitcher.matchup_role ≠ "" ∧ hitter.two_strike_identity ≠ "" then
    MATCHUP_MATRIX_skill_clash.lookup (pitcher.matchup_role, hitter.two_strike_identity)
  else none

/-- The contribution of the pitcher-neutrality rule: `+1.0` when the pitcher
neutrality percentile exceeds 75. -/
def pitcherNeutralityContrib (pitcher : PitcherDict) : Option ℚ :=
  if getNum pitcher.neutrality_pct 50.0 > 75 then some 1.0 else none

/-- The contribution of the platoon rule: `+1.5` when the hitter neutrality
percentile is below 40 and both hands are equal and non-empty. -/
def platoonContrib (pitcher : PitcherDict) (hitter : HitterDict) : Option ℚ :=
  if getNum hitter.neutrality_pct 50.0 < 40 ∧ pitcher.hand = hitter.hand ∧
      pitcher.hand ≠ "" then some 1.5
  else none

/-- The contribution of the two fastball rules: `+0.8` or `-0.8`. -/
def fastballContrib (pitcher : PitcherDict) (hitter : HitterDict) : Option ℚ :=
  if getNum pitcher.ffour_usage 0 > 40 ∧ getNum hitter.woba_hard_pct 50.0 < 30 then
    some 0.8
  else if getNum pitcher.ffour_usage 0 > 40 ∧ getNum hitter.woba_hard_pct 50.0 > 70 then
    some (-0.8)
  else none

/-- The contribution of the two breaking-ball rules: `+0.8` or `-0.8`. -/
def breakingContrib (pitcher : PitcherDict) (hitter : HitterDict) : Option ℚ :=
  if getNum pitcher.bb_usage 0 > 30 ∧ getNum hitter.woba_break_pct 50.0 < 30 then
    some 0.8
  else if getNum pitcher.bb_usage 0 > 30 ∧ getNum hitter.woba_break_pct 50.0 > 70 then
    some (-0.8)
  else none

/-- The contribution of the two offspeed rules: `+0.8` or `-0.8`. -/
def offspeedContrib (pitcher : PitcherDict) (hitter : HitterDict) : Option ℚ :=
  if getNum pitcher.offspeed_usage 0 > 25 ∧ getNum hitter.woba_offspeed_pct 50.0 < 30 then
    some 0.8
  else if getNum pitcher.offspeed_usage 0 > 25 ∧ getNum hitter.woba_offspeed_pct 50.0 > 70 then
    some (-0.8)
  else none

/-- All rule contributions of `calculate_matchup_edge`, in source order;
`none` marks a rule that does not fire. -/
def ruleContribs (pitcher : PitcherDict) (hitter : HitterDict) : List (Option ℚ) :=
  [geometryContrib pitcher hitter, skillClashContrib pitcher hitter,
   pitcherNeutralityContrib pitcher, platoonContrib pitcher hitter,
   fastballContrib pitcher hitter, breakingContrib pitcher hitter,
   offspeedContrib pitcher hitter]

/-- `1` when the rule fires, `0` otherwise. -/
def ruleCount (o : Option ℚ) : ℕ := if o.isSome then 1 else 0

/-- The pitcher of the C3 counterexample: no categorical attribute set, but
a neutrality percentile above 75, so the pitcher-neutrality rule fires. -/
def highNeutralityPitcher : PitcherDict := { neutrality_pct := some 80 }

/-- An entirely default hitter row. -/
def defaultHitter : HitterDict := {}

/-- `grade_map` of `calculate_talent_gap`. -/
def grade_map : List (String × ℚ) :=
  [("A+", 5), ("A", 4), ("B", 3), ("C", 2), ("D/F", 1)]

/-- `calculate_talent_gap` of `Source/utils/matchup_predictor.py`: maps both
overall grades through `grade_map` (default quality 3) and subtracts. -/
def calculate_talent_gap (pitcher : PitcherDict) (hitter : HitterDict) : ℚ :=
  let pitcher_grade := pitcher.overall_grade
  let hitter_grade := hitter.overall_grade
  let pitcher_quality := (grade_map.lookup pitcher_grade).getD 3
  let hitter_quality := (grade_map.lookup hitter_grade).getD 3
  pitcher_quality - hitter_quality

/-- The dictionary returned by `predict_individual_matchup`. -/
structure Matchup where
  edge_score : ℚ
  talent_gap : ℚ
  combined_score : ℚ
  hitter_advantage : Bool
  reasons : List String
  hitter_name : String
  hitter_grade : String
  pitcher_name : String
  pitcher_grade : String
deriving DecidableEq, Repr

/-- `predict_individual_matchup` of `Source/utils/matchup_predictor.py`. -/
def predict_individual_matchup (pitcher : PitcherDict) (hitter : HitterDict) :
    Matchup :=
  let er := calculate_matchup_edge pitcher hitter
  let talent_gap := calculate_talent_gap pitcher hitter
  let combined_score := talent_gap * 1.5 + er.1
  { edge_score := er.1
    talent_gap := talent_gap
    combined_score := combined_score
    hitter_advantage := decide (combined_score < 0)
    reasons := er.2
    hitter_name := hitter.full_name
    hitter_grade := hitter.overall_grade
    pitcher_name := pitcher.full_name
    pitcher_grade := pitcher.overall_grade }

/-- `predict_lineup_performance` of `Source/utils/matchup_predictor.py`:
one matchup per lineup row, sorted by `combined_score` ascending.  pandas
sorts with an unstable quicksort, so the order among equal scores is
unspecified; `mergeSort` realises one admissible order, and no property
below depends on the order of ties. -/
def predict_lineup_performance (pitcher : PitcherDict)
    (lineup_df : List HitterDict) : List Matchup :=
  ((lineup_df.map (fun h => predict_individual_matchup pitcher h)).mergeSort
    (fun a b => decide (a.combined_score ≤ b.combined_score)))

/-- The sigmoid `100 / (1 + np.exp(-0.3 * x))` that `predict_game_outcome`
applies to the average advantage. -/
noncomputable def sigmoid_win_prob (x : ℝ) : ℝ :=
  100 / (1 + Real.exp (-0.3 * x))

/-- Python `round(x, 1)` over the reals. -/
noncomputable def round1 (x : ℝ) : ℝ := ((round (10 * x) : Int) : ℝ) / 10

/-- Python `round(q, 2)` over the rationals. -/
def round2 (q : ℚ) : ℚ := ((round (100 * q) : Int) : ℚ) / 100

/-- An entry of the `top_threats` / `easy_outs` lists of
`predict_game_outcome`. -/
structure Threat where
  name : String
  grade : String
  score : ℚ
  reasons : List String
deriving DecidableEq, Repr

/-- The dictionary returned by `predict_game_outcome`. -/
structure GameOutcome where
  win_probability : ℝ
  pitcher_advantage : ℚ
  lineup_analysis : List Matchup
  top_threats : List Threat
  easy_outs : List Threat
  pitcher_name : String

/-- pandas `DataFrame.tail(3)`: the last three rows. -/
def tail3 {α : Type} (l : List α) : List α := l.drop (l.length - 3)

/-- The threat dictionary built from a lineup-analysis row in
`predict_game_outcome`. -/
def threatOf (m : Matchup) : Threat :=
  { name := m.hitter_name
    grade := m.hitter_grade
    score := m.combined_score
    reasons := m.reasons }

/-- `predict_game_outcome` of `Source/utils/matchup_predictor.py`: raises a
`ValueError` (embedded as `Except.error`) unless the lineup has exactly nine
rows; otherwise averages `combined_score` over the lineup analysis, converts
through the sigmoid, and rounds. -/
noncomputable def predict_game_outcome (pitcher : PitcherDict)
    (lineup_df : List HitterDict) : Except String GameOutcome :=
  if lineup_df.length ≠ 9 then
    Except.error ("Lineup must contain exactly 9 hitters, got "
      ++ toString lineup_df.length)
  else
    let lineup_analysis := predict_lineup_performance pitcher lineup_df
    let avg_advantage : ℚ :=
      (lineup_analysis.map Matchup.combined_score).sum / (lineup_analysis.length : ℚ)
    let win_prob : ℝ := sigmoid_win_prob (avg_advantage : ℝ)
    let top_threats :=
      (lineup_analysis.filter (fun m => m.hitter_advantage)).take 3
    let easy_outs :=
      tail3 (lineup_analysis.filter (fun m => !m.hitter_advantage))
    Except.ok
      { win_probability := round1 win_prob
        pitcher_advantage := round2 avg_advantage
        lineup_analysis := lineup_analysis
        top_threats := top_threats.map threatOf
        easy_outs := easy_outs.map threatOf
        pitcher_name := pitcher.full_name }

namespace App

/-!  `Source/app/utils/matchup_predictor.py` contains a second copy of the
predictor module.  The functions shared with `Source/utils/` are translated
here independently, from the `app` copy, so that their agreement with the
`Source/utils/` translation can be proved rather than assumed. -/

/-- `MATCHUP_MATRIX["path_geometry"]` of the `app` copy. -/
def MATCHUP_MATRIX_path_geometry : List ((String × String) × ℚ) :=
  [(("NORTH-SOUTH (High Rise)", "LOW-BALL GOLFER"), 1.5),
   (("NORTH-SOUTH (High Rise)", "HIGH-BALL HUNTER"), -1.5),
   (("EAST-WEST (Heavy Run)", "DOWNWARD (Groundball)"), 2.0),
   (("EAST-WEST (Heavy Run)", "LEVEL (Line Drive)"), -1.0),
   (("DECEPTIVE (Tunneling)", "UPPERCUT (Flyball)"), 1.0),
   (("LATERAL (Sweeper/Slide)", "ALL-ZONE THREAT"), 0.5)]

/-- `MATCHUP_MATRIX["skill_clash"]` of the `app` copy. -/
def MATCHUP_MATRIX_skill_clash : List ((String × String) × ℚ) :=
  [(("DOMINANT ACE", "FREE SWINGER"), 2.0),
   (("PITCH TO CONTACT SURGEON", "ELITE SPOILER"), -2.5),
   (("POWER ARMS (High Risk)", "FREE SWINGER"), 1.5),
   (("ROTATION STABILIZER", "STANDARD"), 0.5),
   (("POWER ARMS (High Risk)", "ELITE SPOILER"), -1.0)]

/-- Block 1 of the `app` copy of `calculate_matchup_edge`. -/
def geometryStep (pitcher : PitcherDict) (hitter : HitterDict)
    (acc : ℚ × List String) : ℚ × List String :=
  let pitcher_profile := pitcher.attack_profile
  let hitter_profile := hitter.vertical_profile
  if pitcher_profile ≠ "" ∧ hitter_profile ≠ "" then
    match MATCHUP_MATRIX_path_geometry.lookup (pitcher_profile, hitter_profile) with
    | some score =>
        (acc.1 + score,
         acc.2 ++ ["Geometry (" ++ pitcher_profile ++ " vs " ++ hitter_profile ++ "): "
            ++ fmtSigned1 score])
    | none => acc
  else acc

/-- Block 2 of the `app` copy of `calculate_matchup_edge`. -/
def skillClashStep (pitcher : PitcherDict) (hitter : HitterDict)
    (acc : ℚ × List String) : ℚ × List String :=
  let pitcher_role := pitcher.matchup_role
  let hitter_identity := hitter.two_strike_identity
  if pitcher_role ≠ "" ∧ hitter_identity ≠ "" then
    match MATCHUP_MATRIX_skill_clash.lookup (pitcher_role, hitter_identity) with
    | some score =>
        (acc.1 + score,
         acc.2 ++ ["Skill Clash (" ++ pitcher_role ++ " vs " ++ hitter_identity ++ "): "
            ++ fmtSigned1 score])
    | none => acc
  else acc

/-- Block 3a of the `app` copy of `calculate_matchup_edge`. -/
def pitcherNeutralityStep (pitcher : PitcherDict)
    (acc : ℚ × List String) : ℚ × List String :=
  let pitcher_neutrality := getNum pitcher.neutrality_pct 50.0
  if pitcher_neutrality > 75 then
    (acc.1 + 1.0,
     acc.2 ++ ["Pitcher Matchup-Proof (Neutrality: " ++ fmt1 pitcher_neutrality ++ "%): +1.0"])
  else acc

/-- Block 3b of the `app` copy of `calculate_matchup_edge`. -/
def platoonStep (pitcher : PitcherDict) (hitter : HitterDict)
    (acc : ℚ × List String) : ℚ × List String :=
  let hitter_neutrality := getNum hitter.neutrality_pct 50.0
  let pitcher_hand := pitcher.hand
  let hitter_hand := hitter.hand
  if hitter_neutrality < 40 ∧ pitcher_hand = hitter_hand ∧ pitcher_hand ≠ "" then
    (acc.1 + 1.5,
     acc.2 ++ ["Platoon Advantage (" ++ pitcher_hand ++ "HP vs " ++ hitter_hand
        ++ "HB, Neutrality: " ++ fmt1 hitter_neutrality ++ "%): +1.5"])
  else acc

/-- Block 4a of the `app` copy of `calculate_matchup_edge`. -/
def fastballStep (pitcher : PitcherDict) (hitter : HitterDict)
    (acc : ℚ × List String) : ℚ × List String :=
  let ffour_usage := getNum pitcher.ffour_usage 0
  let hitter_woba_hard_pct := getNum hitter.woba_hard_pct 50.0
  if ffour_usage > 40 ∧ hitter_woba_hard_pct < 30 then
    (acc.1 + 0.8,
     acc.2 ++ ["Fastball vs Weakness (FF Usage: " ++ fmt1 ffour_usage
        ++ "%, Hitter wOBA vs Hard: " ++ fmt1 hitter_woba_hard_pct ++ "%ile): +0.8"])
  else if ffour_usage > 40 ∧ hitter_woba_hard_pct > 70 then
    (acc.1 - 0.8,
     acc.2 ++ ["Fastball vs Strength (FF Usage: " ++ fmt1 ffour_usage
        ++ "%, Hitter wOBA vs Hard: " ++ fmt1 hitter_woba_hard_pct ++ "%ile): -0.8"])
  else acc

/-- Block 4b of the `app` copy of `calculate_matchup_edge`. -/
def breakingStep (pitcher : PitcherDict) (hitter : HitterDict)
    (acc : ℚ × List String) : ℚ × List String :=
  let bb_usage := getNum pitcher.bb_usage 0
  let hitter_woba_break_pct := getNum hitter.woba_break_pct 50.0
  if bb_usage > 30 ∧ hitter_woba_break_pct < 30 then
    (acc.1 + 0.8,
     acc.2 ++ ["Breaking Ball vs Weakness (BB Usage: " ++ fmt1 bb_usage
        ++ "%, Hitter wOBA vs Break: " ++ fmt1 hitter_woba_break_pct ++ "%ile): +0.8"])
  else if bb_usage > 30 ∧ hitter_woba_break_pct > 70 then
    (acc.1 - 0.8,
     acc.2 ++ ["Breaking Ball vs Strength (BB Usage: " ++ fmt1 bb_usage
        ++ "%, Hitter wOBA vs Break: " ++ fmt1 hitter_woba_break_pct ++ "%ile): -0.8"])
  else acc

/-- Block 4c of the `app` copy of `calculate_matchup_edge`. -/
def offspeedStep (pitcher : PitcherDict) (hitter : HitterDict)
    (acc : ℚ × List String) : ℚ × List String :=
  let offspeed_usage := getNum pitcher.offspeed_usage 0
  let hitter_woba_offspeed_pct := getNum hitter.woba_offspeed_pct 50.0
  if offspeed_usage > 25 ∧ hitter_woba_offspeed_pct < 30 then
    (acc.1 + 0.8,
     acc.2 ++ ["Offspeed vs Weakness (Offspeed Usage: " ++ fmt1 offspeed_usage
        ++ "%, Hitter wOBA vs Offspeed: " ++ fmt1 hitter_woba_offspeed_pct ++ "%ile): +0.8"])
  else if offspeed_usage > 25 ∧ hitter_woba_offspeed_pct > 70 then
    (acc.1 - 0.8,
     acc.2 ++ ["Offspeed vs Strength (Offspeed Usage: " ++ fmt1 offspeed_usage
        ++ "%, Hitter wOBA vs Offspeed: " ++ fmt1 hitter_woba_offspeed_pct ++ "%ile): -0.8"])
  else acc

/-- `calculate_matchup_edge` of `Source/app/utils/matchup_predictor.py`. -/
def calculate_matchup_edge (pitcher : PitcherDict) (hitter : HitterDict) :
    ℚ × List String :=
  offspeedStep pitcher hitter
    (breakingStep pitcher hitter
      (fastballStep pitcher hitter
        (platoonStep pitcher hitter
          (pitcherNeutralityStep pitcher
            (skillClashStep pitcher hitter
              (geometryStep pitcher hitter (0.0, [])))))))

/-- `grade_map` of the `app` copy of `calculate_talent_gap`. -/
def grade_map : List (String × ℚ) :=
  [("A+", 5), ("A", 4), ("B", 3), ("C", 2), ("D/F", 1)]

/-- `calculate_talent_gap` of `Source/app/utils/matchup_predictor.py`. -/
def calculate_talent_gap (pitcher : PitcherDict) (hitter : HitterDict) : ℚ :=
  let pitcher_grade := pitcher.overall_grade
  let hitter_grade := hitter.overall_grade
  let pitcher_quality := (grade_map.lookup pitcher_grade).getD 3
  let hitter_quality := (grade_map.lookup hitter_grade).getD 3
  pitcher_quality - hitter_quality

/-- `predict_individual_matchup` of `Source/app/utils/matchup_predictor.py`. -/
def predict_individual_matchup (pitcher : PitcherDict) (hitter : HitterDict) :
    Matchup :=
  let er := calculate_matchup_edge pitcher hitter
  let talent_gap := calculate_talent_gap pitcher hitter
  let combined_score := talent_gap * 1.5 + er.1
  { edge_score := er.1
    talent_gap := talent_gap
    combined_score := combined_score
    hitter_advantage := decide (combined_score < 0)
    reasons := er.2
    hitter_name := hitter.full_name
    hitter_grade := hitter.overall_grade
    pitcher_name := pitcher.full_name
    pitcher_grade := pitcher.overall_grade }

/-- `predict_lineup_performance` of `Source/app/utils/matchup_predictor.py`. -/
def predict_lineup_performance (pitcher : PitcherDict)
    (lineup_df : List HitterDict) : List Matchup :=
  ((lineup_df.map (fun h => predict_individual_matchup pitcher h)).mergeSort
    (fun a b => decide (a.combined_score ≤ b.combined_score)))

/-- `predict_game_outcome` of `Source/app/utils/matchup_predictor.py`. -/
noncomputable def predict_game_outcome (pitcher : PitcherDict)
    (lineup_df : List HitterDict) : Except String GameOutcome :=
  if lineup_df.length ≠ 9 then
    Except.error ("Lineup must contain exactly 9 hitters, got "
      ++ toString lineup_df.length)
  else
    let lineup_analysis := predict_lineup_performance pitcher lineup_df
    let avg_advantage : ℚ :=
      (lineup_analysis.map Matchup.combined_score).sum / (lineup_analysis.length : ℚ)
    let win_prob : ℝ := sigmoid_win_prob (avg_advantage : ℝ)
    let top_threats :=
      (lineup_analysis.filter (fun m => m.hitter_advantage)).take 3
    let easy_outs :=
      tail3 (lineup_analysis.filter (fun m => !m.hitter_advantage))
    Except.ok
      { win_probability := round1 win_prob
        pitcher_advantage := round2 avg_advantage
        lineup_analysis := lineup_analysis
        top_threats := top_threats.map threatOf
        easy_outs := easy_outs.map threatOf
        pitcher_name := pitcher.full_name }

end App

/-- The pitcher of the C1 counterexample: graded `A+`, no other attribute
set. -/
def cexPitcher : PitcherDict := { overall_grade := "A+" }

/-- The lineup of the C1 counterexample: nine default (`C`-graded)
hitters. -/
def cexLineup : List HitterDict := List.replicate 9 {}

/-- The fields of a `dim_pitcher_archetypes` row that
`calculate_pitcher_grade` (in `tbl_dim_pitcher_archetypes.py`) indexes
directly; direct indexing assumes the keys are present. -/
structure PitcherRow where
  stuff_plus_pct : ℚ
  location_plus_pct : ℚ
  is_starter : ℚ
  total_appearances : ℚ
deriving DecidableEq, Repr

/-- The base score of `calculate_pitcher_grade`: the 60/40 weighted
combination of the stuff and location percentiles, the starter boost, and
the small-sample penalty, applied in source order. -/
def pitcher_base_score (row : PitcherRow) : ℚ :=
  let stuff_plus := row.stuff_plus_pct
  let location_plus := row.location_plus_pct
  let base_score := stuff_plus * 0.60 + location_plus * 0.40
  let base_score := if row.is_starter = 1 then base_score + 5 else base_score
  let base_score := if row.total_appearances < 5 then base_score - 10 else base_score
  base_score

/-- The final letter-grade chain of `calculate_pitcher_grade`. -/
def pitcher_letter_grade (base_score : ℚ) : String :=
  if base_score ≥ 85 then "A+"
  else if base_score ≥ 75 then "A"
  else if base_score ≥ 60 then "B"
  else if base_score ≥ 45 then "C"
  else "F"

/-- `calculate_pitcher_grade` of `tbl_dim_pitcher_archetypes.py`: returns
`(grade, stuff_plus, location_plus)`. -/
def calculate_pitcher_grade (row : PitcherRow) : String × ℚ × ℚ :=
  (pitcher_letter_grade (pitcher_base_score row), row.stuff_plus_pct,
    row.location_plus_pct)

/-- The fields of a hitter/pitcher archetype row that
`calculate_scouting_grade` (in `tbl_dim_hitter_archetypes.py`) reads through
`row.get(key, 0)`; `none` models an absent key. -/
structure ScoutingRow where
  combined_scouting_z : Option ℚ
  total_pitches_faced : Option ℚ
  total_pitches_thrown : Option ℚ
deriving DecidableEq, Repr

/-- The universal grade thresholds of `calculate_scouting_grade`. -/
def scouting_letter_grade (z_score : ℚ) : String :=
  if z_score ≥ 2.4 then "A+"
  else if z_score ≥ 1.5 then "A"
  else if z_score ≥ 0.6 then "B"
  else if z_score ≥ -0.5 then "C"
  else "D/F"

/-- The z-score after the reliability penalty of
`calculate_scouting_grade`. -/
def penalized_z_score (row : ScoutingRow) (mode : String) : ℚ :=
  let z_score := row.combined_scouting_z.getD 0
  let sample :=
    if mode = "hitter" then row.total_pitches_faced.getD 0
    else row.total_pitches_thrown.getD 0
  if sample < 500 then z_score - 1.0
  else if sample < 1000 then z_score - 0.4
  else z_score

/-- `calculate_scouting_grade` of `tbl_dim_hitter_archetypes.py`: the 20-80
scouting scale on the penalized combined z-score. -/
def calculate_scouting_grade (row : ScoutingRow) (mode : String) : String :=
  scouting_letter_grade (penalized_z_score row mode)

/-- The numeric rank of a letter grade, for comparing grades: `A+` is the
highest.  Grades outside the five-letter scale rank lowest. -/
def gradeRank (g : String) : Nat :=
  if g = "A+" then 5 else if g = "A" then 4 else if g = "B" then 3
  else if g = "C" then 2 else if g = "D/F" then 1 else 0

end Baseball

namespace RadarLead

/-- A business dictionary as seen by the website filter; the code only reads
`b.get('has_website', False)`, so only that field is modelled.  `none`
models an absent key. -/
structure Business where
  has_website : Option Bool
deriving DecidableEq, Repr

namespace PlacesService

/-- `filter_businesses_without_website` of
`RadarLead/services/places_service.py`: keeps the businesses whose
`has_website` is absent or falsy. -/
def filter_businesses_without_website (businesses : List Business) :
    List Business :=
  businesses.filter (fun b => !(b.has_website.getD false))

end PlacesService

namespace OsmService

/-- `filter_businesses_without_website` of
`RadarLead/services/osm_service.py` (textually identical to the
`places_service.py` copy). -/
def filter_businesses_without_website (businesses : List Business) :
    List Business :=
  businesses.filter (fun b => !(b.has_website.getD false))

end OsmService

/-- A sample input for the website filter. -/
def sampleBusinesses : List Business :=
  [{ has_website := none }, { has_website := some true }, { has_website := some false }]

end RadarLead

namespace Baseball

/-!  ## Theorems  -/

theorem geometryStep_fst (p : PitcherDict) (h : HitterDict) (acc : ℚ × List String) :
    (geometryStep p h acc).1 = acc.1 + (geometryContrib p h).getD 0 := by
  simp only [geometryStep, geometryContrib]
  split_ifs with hc
  · cases hl : MATCHUP_MATRIX_path_geometry.lookup (p.attack_profile, h.vertical_profile) <;>
      simp [hl]
  · simp

theorem geometryStep_len (p : PitcherDict) (h : HitterDict) (acc : ℚ × List String) :
    (geometryStep p h acc).2.length = acc.2.length + ruleCount (geometryContrib p h) := by
  simp only [geometryStep, geometryContrib]
  split_ifs with hc
  · cases hl : MATCHUP_MATRIX_path_geometry.lookup (p.attack_profile, h.vertical_profile) <;>
      simp [hl, ruleCount]
  · simp [ruleCount]

theorem skillClashStep_fst (p : PitcherDict) (h : HitterDict) (acc : ℚ × List String) :
    (skillClashStep p h acc).1 = acc.1 + (skillClashContrib p h).getD 0 := by
  simp only [skillClashStep, skillClashContrib]
  split_ifs with hc
  · cases hl : MATCHUP_MATRIX_skill_clash.lookup (p.matchup_role, h.two_strike_identity) <;>
      simp [hl]
  · simp

theorem skillClashStep_len (p : PitcherDict) (h : HitterDict) (acc : ℚ × List String) :
    (skillClashStep p h acc).2.length = acc.2.length + ruleCount (skillClashContrib p h) := by
  simp only [skillClashStep, skillClashContrib]
  split_ifs with hc
  · cases hl : MATCHUP_MATRIX_skill_clash.lookup (p.matchup_role, h.two_strike_identity) <;>
      simp [hl, ruleCount]
  · simp [ruleCount]

theorem pitcherNeutralityStep_fst (p : PitcherDict) (acc : ℚ × List String) :
    (pitcherNeutralityStep p acc).1 = acc.1 + (pitcherNeutralityContrib p).getD 0 := by
  simp only [pitcherNeutralityStep, pitcherNeutralityContrib]
  split_ifs <;> simp

theorem pitcherNeutralityStep_len (p : PitcherDict) (acc : ℚ × List String) :
    (pitcherNeutralityStep p acc).2.length =
      acc.2.length + ruleCount (pitcherNeutralityContrib p) := by
  simp only [pitcherNeutralityStep, pitcherNeutralityContrib]
  split_ifs <;> simp [ruleCount]

theorem platoonStep_fst (p : PitcherDict) (h : HitterDict) (acc : ℚ × List String) :
    (platoonStep p h acc).1 = acc.1 + (platoonContrib p h).getD 0 := by
  simp only [platoonStep, platoonContrib]
  split_ifs <;> simp

theorem platoonStep_len (p : PitcherDict) (h : HitterDict) (acc : ℚ × List String) :
    (platoonStep p h acc).2.length = acc.2.length + ruleCount (platoonContrib p h) := by
  simp only [platoonStep, platoonContrib]
  split_ifs <;> simp [ruleCount]

theorem fastballStep_fst (p : PitcherDict) (h : HitterDict) (acc : ℚ × List String) :
    (fastballStep p h acc).1 = acc.1 + (fastballContrib p h).getD 0 := by
  simp only [fastballStep, fastballContrib]
  split_ifs <;> simp <;> ring

theorem fastballStep_len (p : PitcherDict) (h : HitterDict) (acc : ℚ × List String) :
    (fastballStep p h acc).2.length = acc.2.length + ruleCount (fastballContrib p h) := by
  simp only [fastballStep, fastballContrib]
  split_ifs <;> simp [ruleCount]

theorem breakingStep_fst (p : PitcherDict) (h : HitterDict) (acc : ℚ × List String) :
    (breakingStep p h acc).1 = acc.1 + (breakingContrib p h).getD 0 := by
  simp only [breakingStep, breakingContrib]
  split_ifs <;> simp <;> ring

theorem breakingStep_len (p : PitcherDict) (h : HitterDict) (acc : ℚ × List String) :
    (breakingStep p h acc).2.length = acc.2.length + ruleCount (breakingContrib p h) := by
  simp only [breakingStep, breakingContrib]
  split_ifs <;> simp [ruleCount]

theorem offspeedStep_fst (p : PitcherDict) (h : HitterDict) (acc : ℚ × List String) :
    (offspeedStep p h acc).1 = acc.1 + (offspeedContrib p h).getD 0 := by
  simp only [offspeedStep, offspeedContrib]
  split_ifs <;> simp <;> ring

theorem offspeedStep_len (p : PitcherDict) (h : HitterDict) (acc : ℚ × List String) :
    (offspeedStep p h acc).2.length = acc.2.length + ruleCount (offspeedContrib p h) := by
  simp only [offspeedStep, offspeedContrib]
  split_ifs <;> simp [ruleCount]

theorem reduceOption_sum_eq (l : List (Option ℚ)) :
    l.reduceOption.sum = (l.map (fun o => o.getD 0)).sum := by
  induction l with
  | nil => simp
  | cons a t ih => cases a <;> simp [List.reduceOption_cons_of_some, ih]

theorem reduceOption_length_eq (l : List (Option ℚ)) :
    l.reduceOption.length = (l.map ruleCount).sum := by
  induction l with
  | nil => simp
  | cons a t ih => cases a <;> simp [List.reduceOption_cons_of_some, ruleCount, ih] <;> omega

theorem geometryStep_none (p : PitcherDict) (h : HitterDict) (acc : ℚ × List String)
    (hc : geometryContrib p h = none) : geometryStep p h acc = acc := by
  simp only [geometryContrib] at hc
  simp only [geometryStep]
  split_ifs with hg
  · rw [if_pos hg] at hc
    rw [hc]
  · rfl

theorem skillClashStep_none (p : PitcherDict) (h : HitterDict) (acc : ℚ × List String)
    (hc : skillClashContrib p h = none) : skillClashStep p h acc = acc := by
  simp only [skillClashContrib] at hc
  simp only [skillClashStep]
  split_ifs with hg
  · rw [if_pos hg] at hc
    rw [hc]
  · rfl

theorem pitcherNeutralityStep_none (p : PitcherDict) (acc : ℚ × List String)
    (hc : pitcherNeutralityContrib p = none) : pitcherNeutralityStep p acc = acc := by
  simp only [pitcherNeutralityContrib] at hc
  simp only [pitcherNeutralityStep]
  split_ifs with hg
  · rw [if_pos hg] at hc
    simp at hc
  · rfl

theorem platoonStep_none (p : PitcherDict) (h : HitterDict) (acc : ℚ × List String)
    (hc : platoonContrib p h = none) : platoonStep p h acc = acc := by
  simp only [platoonContrib] at hc
  simp only [platoonStep]
  split_ifs with hg
  · rw [if_pos hg] at hc
    simp at hc
  · rfl

theorem fastballStep_none (p : PitcherDict) (h : HitterDict) (acc : ℚ × List String)
    (hc : fastballContrib p h = none) : fastballStep p h acc = acc := by
  simp only [fastballContrib] at hc
  simp only [fastballStep]
  split_ifs with h1 h2
  · rw [if_pos h1] at hc
    simp at hc
  · rw [if_neg h1, if_pos h2] at hc
    simp at hc
  · rfl

theorem breakingStep_none (p : PitcherDict) (h : HitterDict) (acc : ℚ × List String)
    (hc : breakingContrib p h = none) : breakingStep p h acc = acc := by
  simp only [breakingContrib] at hc
  simp only [breakingStep]
  split_ifs with h1 h2
  · rw [if_pos h1] at hc
    simp at hc
  · rw [if_neg h1, if_pos h2] at hc
    simp at hc
  · rfl

theorem offspeedStep_none (p : PitcherDict) (h : HitterDict) (acc : ℚ × List String)
    (hc : offspeedContrib p h = none) : offspeedStep p h acc = acc := by
  simp only [offspeedContrib] at hc
  simp only [offspeedStep]
  split_ifs with h1 h2
  · rw [if_pos h1] at hc
    simp at hc
  · rw [if_neg h1, if_pos h2] at hc
    simp at hc
  · rfl

/-- C2: for every pitcher and hitter, `calculate_matchup_edge` returns an
edge score equal to the sum of the fixed constants of exactly the rules that
fire (the two matrix lookups, the two neutrality rules, and the six
fixed-threshold pitch-type rules), together with one reason string per fired
rule, so the reasons list has as many entries as there are fired rules. -/
theorem matchup_edge_sum_of_fired_rules (p : PitcherDict) (h : HitterDict) :
    (calculate_matchup_edge p h).1 = (ruleContribs p h).reduceOption.sum ∧
    (calculate_matchup_edge p h).2.length = (ruleContribs p h).reduceOption.length := by
  constructor
  · rw [reduceOption_sum_eq]
    simp only [calculate_matchup_edge, ruleContribs, List.map_cons, List.map_nil,
      List.sum_cons, List.sum_nil]
    rw [offspeedStep_fst, breakingStep_fst, fastballStep_fst, platoonStep_fst,
      pitcherNeutralityStep_fst, skillClashStep_fst, geometryStep_fst]
    norm_num
    ring
  · rw [reduceOption_length_eq]
    simp only [calculate_matchup_edge, ruleContribs, List.map_cons, List.map_nil,
      List.sum_cons, List.sum_nil]
    rw [offspeedStep_len, breakingStep_len, fastballStep_len, platoonStep_len,
      pitcherNeutralityStep_len, skillClashStep_len, geometryStep_len]
    simp
    omega

/-- C3 (amended): when no rule of the scorer fires — neither categorical
lookup matches, the pitcher-neutrality and platoon rules do not fire, and no
pitch-type rule fires — `calculate_matchup_edge` returns edge score 0 and an
empty reasons list. -/
theorem no_fired_rule_zero_edge (p : PitcherDict) (h : HitterDict)
    (h1 : geometryContrib p h = none) (h2 : skillClashContrib p h = none)
    (h3 : pitcherNeutralityContrib p = none) (h4 : platoonContrib p h = none)
    (h5 : fastballContrib p h = none) (h6 : breakingContrib p h = none)
    (h7 : offspeedContrib p h = none) :
    calculate_matchup_edge p h = (0, []) := by
  unfold calculate_matchup_edge
  rw [geometryStep_none p h _ h1, skillClashStep_none p h _ h2,
    pitcherNeutralityStep_none p _ h3, platoonStep_none p h _ h4,
    fastballStep_none p h _ h5, breakingStep_none p h _ h6,
    offspeedStep_none p h _ h7]
  norm_num

theorem no_fired_rule_zero_edge_witness :
    geometryContrib {} {} = none ∧ skillClashContrib {} {} = none ∧
    pitcherNeutralityContrib {} = none ∧ platoonContrib {} {} = none ∧
    fastballContrib {} {} = none ∧ breakingContrib {} {} = none ∧
    offspeedContrib {} {} = none ∧ calculate_matchup_edge {} {} = (0, []) :=
  ⟨by simp [geometryContrib], by simp [skillClashContrib],
   by norm_num [pitcherNeutralityContrib, getNum],
   by norm_num [platoonContrib, getNum],
   by norm_num [fastballContrib, getNum],
   by norm_num [breakingContrib, getNum],
   by norm_num [offspeedContrib, getNum],
   no_fired_rule_zero_edge {} {} (by simp [geometryContrib]) (by simp [skillClashContrib])
     (by norm_num [pitcherNeutralityContrib, getNum])
     (by norm_num [platoonContrib, getNum])
     (by norm_num [fastballContrib, getNum])
     (by norm_num [breakingContrib, getNum])
     (by norm_num [offspeedContrib, getNum])⟩

/-- C3 (counterexample): a pitcher with neutrality percentile 80 against an
entirely default hitter: neither categorical lookup matches, yet the edge
score is 1.0 with one reason, not 0 with no reasons. -/
theorem no_categorical_match_not_zero :
    MATCHUP_MATRIX_path_geometry.lookup
        (highNeutralityPitcher.attack_profile, defaultHitter.vertical_profile) = none ∧
    MATCHUP_MATRIX_skill_clash.lookup
        (highNeutralityPitcher.matchup_role, defaultHitter.two_strike_identity) = none ∧
    calculate_matchup_edge highNeutralityPitcher defaultHitter ≠ (0, []) := by
  refine ⟨rfl, rfl, ?_⟩
  intro hEq
  have h1 : (calculate_matchup_edge highNeutralityPitcher defaultHitter).1 = 1 := by
    unfold calculate_matchup_edge
    rw [offspeedStep_fst, breakingStep_fst, fastballStep_fst, platoonStep_fst,
      pitcherNeutralityStep_fst, skillClashStep_fst, geometryStep_fst]
    norm_num [geometryContrib, skillClashContrib, pitcherNeutralityContrib,
      platoonContrib, fastballContrib, breakingContrib, offspeedContrib, getNum,
      highNeutralityPitcher, defaultHitter]
  rw [hEq] at h1
  norm_num at h1

theorem gradeRank_scouting (z : ℚ) :
    gradeRank (scouting_letter_grade z) =
      if 2.4 ≤ z then 5 else if 1.5 ≤ z then 4 else if 0.6 ≤ z then 3
      else if -0.5 ≤ z then 2 else 1 := by
  simp only [scouting_letter_grade, ge_iff_le]
  split_ifs <;> simp [gradeRank]

theorem scouting_letter_grade_mono {z1 z2 : ℚ} (h : z1 ≤ z2) :
    gradeRank (scouting_letter_grade z1) ≤ gradeRank (scouting_letter_grade z2) := by
  rw [gradeRank_scouting, gradeRank_scouting]
  split_ifs with a1 a2 a3 a4 a5 a6 a7 a8 a9 a10 a11 a12 a13 a14 a15 a16 a17 a18 a19 a20
  all_goals try norm_num
  all_goals exfalso
  all_goals linarith

/-- C4: the sigmoid win-probability conversion used by
`predict_game_outcome` is strictly increasing, and every value lies strictly
between 0 and 100. -/
theorem sigmoid_win_prob_mono_bounded :
    (∀ x y : ℝ, x < y → sigmoid_win_prob x < sigmoid_win_prob y) ∧
    (∀ x : ℝ, 0 < sigmoid_win_prob x ∧ sigmoid_win_prob x < 100) := by
  constructor
  · intro x y hxy
    unfold sigmoid_win_prob
    have hy : (0:ℝ) < 1 + Real.exp (-0.3 * y) := by positivity
    have hexp : Real.exp (-0.3 * y) < Real.exp (-0.3 * x) := by
      apply Real.exp_lt_exp.mpr
      linarith
    apply div_lt_div_of_pos_left (by norm_num : (0:ℝ) < 100) hy
    linarith
  · intro x
    unfold sigmoid_win_prob
    constructor
    · positivity
    · apply div_lt_self (by norm_num)
      have := Real.exp_pos (-0.3 * x)
      linarith

theorem sigmoid_win_prob_mono_bounded_witness :
    ((0:ℝ) < 1) ∧ sigmoid_win_prob 0 < sigmoid_win_prob 1 ∧
    (0 < sigmoid_win_prob 0 ∧ sigmoid_win_prob 0 < 100) :=
  ⟨by norm_num, sigmoid_win_prob_mono_bounded.1 0 1 (by norm_num),
   sigmoid_win_prob_mono_bounded.2 0⟩

/-- C5: the grade thresholds partition the score axis without gaps: each
score receives exactly one letter grade, characterised by the stated
brackets, for both `calculate_pitcher_grade` and
`calculate_scouting_grade`. -/
theorem grade_thresholds_partition :
    (∀ s : ℚ,
      (pitcher_letter_grade s = "A+" ↔ 85 ≤ s) ∧
      (pitcher_letter_grade s = "A" ↔ 75 ≤ s ∧ s < 85) ∧
      (pitcher_letter_grade s = "B" ↔ 60 ≤ s ∧ s < 75) ∧
      (pitcher_letter_grade s = "C" ↔ 45 ≤ s ∧ s < 60) ∧
      (pitcher_letter_grade s = "F" ↔ s < 45)) ∧
    (∀ z : ℚ,
      (scouting_letter_grade z = "A+" ↔ 2.4 ≤ z) ∧
      (scouting_letter_grade z = "A" ↔ 1.5 ≤ z ∧ z < 2.4) ∧
      (scouting_letter_grade z = "B" ↔ 0.6 ≤ z ∧ z < 1.5) ∧
      (scouting_letter_grade z = "C" ↔ -0.5 ≤ z ∧ z < 0.6) ∧
      (scouting_letter_grade z = "D/F" ↔ z < -0.5)) := by
  constructor
  · intro s
    simp only [pitcher_letter_grade, ge_iff_le]
    split_ifs with h1 h2 h3 h4 <;>
      refine ⟨?_, ?_, ?_, ?_, ?_⟩ <;> simp <;>
        first
          | linarith
          | (constructor <;> linarith)
          | (intros; linarith)
          | (intros; constructor <;> linarith)
  · intro z
    simp only [scouting_letter_grade, ge_iff_le]
    split_ifs with h1 h2 h3 h4 <;>
      refine ⟨?_, ?_, ?_, ?_, ?_⟩ <;> simp <;>
        first
          | linarith
          | (constructor <;> linarith)
          | (intros; linarith)
          | (intros; constructor <;> linarith)

theorem grade_thresholds_partition_witness :
    (pitcher_letter_grade 90 = "A+" ↔ 85 ≤ (90:ℚ)) ∧
    (scouting_letter_grade 0 = "C" ↔ -0.5 ≤ (0:ℚ) ∧ (0:ℚ) < 0.6) :=
  ⟨(grade_thresholds_partition.1 90).1, (grade_thresholds_partition.2 0).2.2.2.1⟩

/-- C6: the sample-size penalties only ever lower a score: a pitcher row
with fewer than 5 appearances scores exactly 10 below the same row without
the penalty branch (and never above it), and the scouting z-score penalty
subtracts 1.0 below 500 samples and 0.4 below 1000, so the penalized
z-score, and hence the letter grade, is never higher than without the
penalty. -/
theorem sample_size_penalties_only_reduce :
    (∀ row : PitcherRow, row.total_appearances < 5 →
      pitcher_base_score row =
        (row.stuff_plus_pct * 0.60 + row.location_plus_pct * 0.40 +
          (if row.is_starter = 1 then 5 else 0)) - 10) ∧
    (∀ row : PitcherRow,
      pitcher_base_score row ≤
        row.stuff_plus_pct * 0.60 + row.location_plus_pct * 0.40 +
          (if row.is_starter = 1 then 5 else 0)) ∧
    (∀ (row : ScoutingRow) (mode : String),
      penalized_z_score row mode ≤ row.combined_scouting_z.getD 0) ∧
    (∀ (row : ScoutingRow) (mode : String),
      gradeRank (calculate_scouting_grade row mode) ≤
        gradeRank (scouting_letter_grade (row.combined_scouting_z.getD 0))) := by
  refine ⟨?_, ?_, ?_, ?_⟩
  · intro row hrow
    simp only [pitcher_base_score]
    split_ifs <;> first | ring | linarith
  · intro row
    simp only [pitcher_base_score]
    split_ifs <;> linarith
  · intro row mode
    simp only [penalized_z_score]
    split_ifs <;> linarith
  · intro row mode
    simp only [calculate_scouting_grade]
    apply scouting_letter_grade_mono
    simp only [penalized_z_score]
    split_ifs <;> linarith

theorem sample_size_penalties_only_reduce_witness :
    ((3:ℚ) < 5) ∧
    pitcher_base_score (PitcherRow.mk 50 50 0 3) =
      ((50:ℚ) * 0.60 + 50 * 0.40 + (if (0:ℚ) = 1 then 5 else 0)) - 10 :=
  ⟨by norm_num,
   sample_size_penalties_only_reduce.1 (PitcherRow.mk 50 50 0 3) (by norm_num)⟩

/-- C9: `calculate_talent_gap` maps grades through
`{A+: 5, A: 4, B: 3, C: 2, D/F: 1}` with default quality 3 for anything
else; `calculate_pitcher_grade` emits `F` (not `D/F`) on its lowest tier, so
a pitcher graded `F` produces the same talent gap as one graded `B`. -/
theorem talent_gap_F_same_as_B :
    (grade_map.lookup "F" = none ∧ (grade_map.lookup "B").getD 3 = 3) ∧
    (∀ row : PitcherRow, pitcher_base_score row < 45 →
      (calculate_pitcher_grade row).1 = "F") ∧
    (∀ (p pB : PitcherDict) (h : HitterDict), p.overall_grade = "F" →
      pB.overall_grade = "B" →
      calculate_talent_gap p h = calculate_talent_gap pB h) := by
  refine ⟨⟨rfl, rfl⟩, ?_, ?_⟩
  · intro row hrow
    simp only [calculate_pitcher_grade, pitcher_letter_grade, ge_iff_le]
    split_ifs <;> first | rfl | linarith
  · intro p pB h hF hB
    simp only [calculate_talent_gap, hF, hB]
    have hf : grade_map.lookup "F" = none := rfl
    have hb : grade_map.lookup "B" = some 3 := rfl
    rw [hf, hb]
    simp

theorem talent_gap_F_same_as_B_witness :
    (({ overall_grade := "F" } : PitcherDict).overall_grade = "F") ∧
    (({ overall_grade := "B" } : PitcherDict).overall_grade = "B") ∧
    calculate_talent_gap { overall_grade := "F" } {} =
      calculate_talent_gap { overall_grade := "B" } {} :=
  ⟨rfl, rfl, talent_gap_F_same_as_B.2.2 _ _ {} rfl rfl⟩

theorem predict_lineup_performance_perm (p : PitcherDict) (l : List HitterDict) :
    (predict_lineup_performance p l).Perm
      (l.map (fun h => predict_individual_matchup p h)) := by
  unfold predict_lineup_performance
  exact List.mergeSort_perm _ _

theorem predict_lineup_performance_length (p : PitcherDict) (l : List HitterDict) :
    (predict_lineup_performance p l).length = l.length := by
  rw [(predict_lineup_performance_perm p l).length_eq, List.length_map]

theorem predict_lineup_performance_combined_sum (p : PitcherDict) (l : List HitterDict) :
    ((predict_lineup_performance p l).map Matchup.combined_score).sum =
      (l.map (fun h => (predict_individual_matchup p h).combined_score)).sum := by
  have hperm := (predict_lineup_performance_perm p l).map Matchup.combined_score
  rw [hperm.sum_eq, List.map_map]
  rfl

theorem predict_game_outcome_win (p : PitcherDict) (l : List HitterDict)
    (h9 : l.length = 9) :
    (predict_game_outcome p l).toOption.map GameOutcome.win_probability =
      some (round1 (sigmoid_win_prob
        (((l.map (fun h => (predict_individual_matchup p h).combined_score)).sum / 9 : ℚ) : ℝ))) := by
  simp only [predict_game_outcome, h9, ne_eq, not_true_eq_false, if_false, Except.toOption,
    Option.map]
  rw [predict_lineup_performance_combined_sum, predict_lineup_performance_length, h9]
  norm_num

/-- C7: `predict_game_outcome` raises a `ValueError` exactly when the lineup
does not contain nine hitters, and returns a full result on every nine-row
lineup. -/
theorem predict_game_outcome_error_iff (p : PitcherDict) (l : List HitterDict) :
    ((∃ msg, predict_game_outcome p l = Except.error msg) ↔ l.length ≠ 9) ∧
    (l.length = 9 → ∃ g, predict_game_outcome p l = Except.ok g) := by
  constructor
  · constructor
    · rintro ⟨msg, hmsg⟩ h9
      simp only [predict_game_outcome] at hmsg
      rw [if_neg (by simp [h9])] at hmsg
      exact Except.noConfusion hmsg
    · intro h9
      refine ⟨"Lineup must contain exactly 9 hitters, got " ++ toString l.length, ?_⟩
      simp only [predict_game_outcome]
      rw [if_pos h9]
  · intro h9
    simp only [predict_game_outcome]
    rw [if_neg (by simp [h9])]
    exact ⟨_, rfl⟩

theorem predict_game_outcome_error_iff_witness :
    (List.replicate 9 ({} : HitterDict)).length = 9 ∧
    ∃ g, predict_game_outcome {} (List.replicate 9 {}) = Except.ok g :=
  ⟨rfl, (predict_game_outcome_error_iff {} (List.replicate 9 {})).2 rfl⟩

/-- C1 (amended): for every nine-hitter lineup, the win probability returned
by `predict_game_outcome` equals the fixed-coefficient logistic
`100 / (1 + e^{-0.3 x})` applied to x = the mean combined matchup score
across the nine hitters (the mean of `combined_score` from
`predict_individual_matchup`, i.e. `1.5 * talent gap + edge score`), rounded
to one decimal place. -/
theorem win_probability_from_mean_combined (p : PitcherDict) (l : List HitterDict)
    (h9 : l.length = 9) :
    (predict_game_outcome p l).toOption.map GameOutcome.win_probability =
      some (round1 (sigmoid_win_prob
        (((l.map (fun h => (predict_individual_matchup p h).combined_score)).sum / 9 : ℚ) : ℝ))) :=
  predict_game_outcome_win p l h9

theorem win_probability_from_mean_combined_witness :
    (List.replicate 9 ({} : HitterDict)).length = 9 ∧
    (predict_game_outcome {} (List.replicate 9 {})).toOption.map GameOutcome.win_probability =
      some (round1 (sigmoid_win_prob
        ((((List.replicate 9 ({} : HitterDict)).map
            (fun h => (predict_individual_matchup {} h).combined_score)).sum / 9 : ℚ) : ℝ))) :=
  ⟨rfl, win_probability_from_mean_combined {} _ rfl⟩

theorem sigmoid_win_prob_zero : sigmoid_win_prob 0 = 50 := by
  unfold sigmoid_win_prob
  norm_num [Real.exp_zero]

theorem round1_fifty : round1 (50 : ℝ) = 50 := by
  unfold round1
  have h : (10:ℝ) * 50 = ((500:Int):ℝ) := by norm_num
  rw [h, round_intCast]
  norm_num

theorem sigmoid_win_prob_nine_halves_ge : (70:ℝ) ≤ sigmoid_win_prob (9/2) := by
  unfold sigmoid_win_prob
  have harg : (-0.3:ℝ) * (9/2) = -(27/20) := by norm_num
  rw [harg]
  have h1 : (47/20:ℝ) ≤ Real.exp (27/20) := by
    have h := Real.add_one_le_exp (27/20:ℝ)
    linarith
  have h2 : Real.exp (-(27/20)) ≤ 20/47 := by
    rw [Real.exp_neg]
    have hpos : (0:ℝ) < 47/20 := by norm_num
    calc (Real.exp (27/20))⁻¹ ≤ ((47:ℝ)/20)⁻¹ := by
          exact inv_anti₀ hpos h1
      _ = 20/47 := by norm_num
  have hden : (0:ℝ) < 1 + Real.exp (-(27/20)) := by positivity
  rw [le_div_iff₀ hden]
  linarith

theorem round1_ge_seventy {x : ℝ} (hx : (70:ℝ) ≤ x) : (70:ℝ) ≤ round1 x := by
  unfold round1
  have h700 : (700:Int) ≤ round (10 * x) := by
    rw [round_eq]
    refine Int.le_floor.mpr ?_
    push_cast
    linarith
  have hcast : ((700:Int):ℝ) ≤ ((round (10 * x) : Int) : ℝ) := by exact_mod_cast h700
  push_cast at hcast
  linarith

/-- C1 (counterexample): an `A+` pitcher against nine default (`C`-graded)
hitters.  Every matchup has edge score 0 but combined score 4.5, so the win
probability is computed from the mean combined score 4.5 (giving at least
70) and not from the mean edge score 0 (whose logistic rounds to exactly
50). -/
theorem win_probability_not_from_mean_edge :
    (predict_game_outcome cexPitcher cexLineup).toOption.map GameOutcome.win_probability ≠
      some (round1 (sigmoid_win_prob
        (((cexLineup.map (fun h => (calculate_matchup_edge cexPitcher h).1)).sum / 9 : ℚ) : ℝ))) := by
  have hedge : calculate_matchup_edge cexPitcher ({} : HitterDict) = (0, []) := by
    unfold calculate_matchup_edge
    rw [geometryStep_none _ _ _ (by simp [geometryContrib, cexPitcher]),
      skillClashStep_none _ _ _ (by simp [skillClashContrib, cexPitcher]),
      pitcherNeutralityStep_none _ _ (by norm_num [pitcherNeutralityContrib, getNum, cexPitcher]),
      platoonStep_none _ _ _ (by norm_num [platoonContrib, getNum, cexPitcher]),
      fastballStep_none _ _ _ (by norm_num [fastballContrib, getNum, cexPitcher]),
      breakingStep_none _ _ _ (by norm_num [breakingContrib, getNum, cexPitcher]),
      offspeedStep_none _ _ _ (by norm_num [offspeedContrib, getNum, cexPitcher])]
    norm_num
  have hpim : (predict_individual_matchup cexPitcher ({} : HitterDict)).combined_score = 9/2 := by
    simp only [predict_individual_matchup, hedge]
    have hA : grade_map.lookup "A+" = some 5 := rfl
    have hC : grade_map.lookup "C" = some 2 := rfl
    simp only [calculate_talent_gap, cexPitcher]
    rw [hA, hC]
    norm_num
  intro heq
  rw [predict_game_outcome_win cexPitcher cexLineup rfl] at heq
  have hcomb : ((cexLineup.map
      (fun h => (predict_individual_matchup cexPitcher h).combined_score)).sum / 9 : ℚ) = 9/2 := by
    simp [cexLineup, hpim]
    norm_num
  have hmean : ((cexLineup.map
      (fun h => (calculate_matchup_edge cexPitcher h).1)).sum / 9 : ℚ) = 0 := by
    simp [cexLineup, hedge]
  rw [hcomb, hmean] at heq
  have heq2 := Option.some_injective _ heq
  have c1 : ((9/2:ℚ):ℝ) = 9/2 := by norm_num
  have c2 : (((0:ℚ)):ℝ) = 0 := by norm_num
  rw [c1, c2] at heq2
  have h70 := round1_ge_seventy sigmoid_win_prob_nine_halves_ge
  rw [heq2, sigmoid_win_prob_zero, round1_fifty] at h70
  norm_num at h70

/-- C10: the predictor copy in `Source/app/utils/matchup_predictor.py`
computes exactly the same results as `Source/utils/matchup_predictor.py` on
the functions the two files share (same matrix constants, same talent-gap
weight, same logistic conversion). -/
theorem app_copy_agrees :
    (∀ p h, App.calculate_matchup_edge p h = calculate_matchup_edge p h) ∧
    (∀ p h, App.calculate_talent_gap p h = calculate_talent_gap p h) ∧
    (∀ p h, App.predict_individual_matchup p h = predict_individual_matchup p h) ∧
    (∀ p l, App.predict_game_outcome p l = predict_game_outcome p l) :=
  ⟨fun _ _ => rfl, fun _ _ => rfl, fun _ _ => rfl, fun _ _ => rfl⟩

end Baseball

namespace RadarLead

/-- C8: `filter_businesses_without_website` returns exactly the businesses
lacking a website: an order-preserving sublist of the input in which every
entry lacks a website and from which no website-lacking entry is missing;
the `places_service.py` and `osm_service.py` copies agree. -/
theorem filter_keeps_exactly_websiteless (bs : List Business) :
    (PlacesService.filter_businesses_without_website bs).Sublist bs ∧
    (∀ b ∈ PlacesService.filter_businesses_without_website bs,
      b.has_website.getD false = false) ∧
    (∀ b ∈ bs, b.has_website.getD false = false →
      b ∈ PlacesService.filter_businesses_without_website bs) ∧
    OsmService.filter_businesses_without_website bs =
      PlacesService.filter_businesses_without_website bs := by
  refine ⟨List.filter_sublist _, ?_, ?_, rfl⟩
  · intro b hb
    have hp := (List.mem_filter.mp hb).2
    simpa using hp
  · intro b hb hw
    exact List.mem_filter.mpr ⟨hb, by simp [hw]⟩

theorem filter_keeps_exactly_websiteless_witness :
    ({ has_website := none } : Business) ∈ sampleBusinesses ∧
    ({ has_website := none } : Business).has_website.getD false = false ∧
    ({ has_website := none } : Business) ∈
      PlacesService.filter_businesses_without_website sampleBusinesses :=
  ⟨by decide, rfl,
   (filter_keeps_exactly_websiteless sampleBusinesses).2.2.1
     { has_website := none } (by decide) rfl⟩

end RadarLead
